import Mathlib

/-!
Verification of the Universal Language Support Chatbot backend
(src/backend/app.py).

The backend is sequential request handling over strings.  We embed the
Python code shallowly: Python strings become `String`, Python string
methods (`in`, `startswith`, `strip`, `lower`, `split`, `join`) become
the executable `py_*` functions below, defined on the underlying
character lists.  The three external services (the googletrans engine,
the langdetect detector, the Ollama HTTP endpoint, the Whisper model)
are black boxes per the specification, so each is passed in as an
explicit oracle argument; a fallible oracle returns `Except`/`Option`.
Where a claim says "no external call happens", the embedded function
also returns the number of engine invocations it performed.
-/

/-! ## Python string primitives -/

/-- Model of Python `str.lower()`: character-wise lowering. -/
def py_lower (s : String) : String := String.mk (s.data.map Char.toLower)

/-- Whether the character list `n` occurs contiguously inside `h`
(the list form of Python `n in h`). -/
def containsAux (n : List Char) : List Char → Bool
  | [] => n.isEmpty
  | c :: rest => n.isPrefixOf (c :: rest) || containsAux n rest

/-- Model of Python `needle in hay` (substring containment). -/
def py_contains (needle hay : String) : Bool := containsAux needle.data hay.data

/-- Model of Python `s.startswith(pre)`. -/
def py_startswith (s pre : String) : Bool := pre.data.isPrefixOf s.data

/-- Model of Python `s.strip()`: drop whitespace from both ends. -/
def py_strip (s : String) : String :=
  String.mk (((s.data.dropWhile Char.isWhitespace).reverse.dropWhile Char.isWhitespace).reverse)

/-- Helper for Python `s.split()`: accumulate maximal non-whitespace runs. -/
def py_words_aux : List Char → List Char → List String
  | [], cur => if cur = [] then [] else [String.mk cur.reverse]
  | c :: rest, cur =>
    if c.isWhitespace then
      if cur = [] then py_words_aux rest []
      else String.mk cur.reverse :: py_words_aux rest []
    else py_words_aux rest (c :: cur)

/-- Model of Python `s.split()` with no argument: whitespace-separated
words, empties dropped. -/
def py_words (s : String) : List String := py_words_aux s.data []

/-- Helper for Python `s.split(sep)`: scan left to right, cutting at each
non-overlapping occurrence of `sep`; `cur` holds the current piece reversed.
Structural recursion on a fuel counter (the scan consumes at least one
character per step, so fuel equal to the input length never runs out). -/
def splitOnAuxL (sep : List Char) : Nat → List Char → List Char → List (List Char)
  | 0, l, cur => [cur.reverse ++ l]
  | _ + 1, [], cur => [cur.reverse]
  | fuel + 1, c :: rest, cur =>
    if sep.isPrefixOf (c :: rest) then
      cur.reverse :: splitOnAuxL sep fuel (rest.drop (sep.length - 1)) []
    else
      splitOnAuxL sep fuel rest (c :: cur)

/-- Model of Python `s.split(sep)` for a separator string. -/
def py_split (sep s : String) : List String :=
  (splitOnAuxL sep.data s.data.length s.data []).map String.mk

/-- Model of Python `sep.join(parts)`. -/
def py_join (sep : String) : List String → String
  | [] => ""
  | [x] => x
  | x :: xs => x ++ sep ++ py_join sep xs

/-- Model of Python slicing `s[:n]`. -/
def py_take (n : Nat) (s : String) : String := String.mk (s.data.take n)

/-- The characters of `l` that come strictly after the first occurrence of `c`,
or `none` when `c` does not occur. -/
def afterFirstChar (c : Char) : List Char → Option (List Char)
  | [] => none
  | d :: rest => if d = c then some rest else afterFirstChar c rest

/-- Model of Python `s.split('.', 1)[-1]`: everything after the first period,
or the whole string when there is none. -/
def py_split_dot1_last (s : String) : String :=
  match afterFirstChar '.' s.data with
  | some rest => String.mk rest
  | none => s

/-- Model of Python `d.get(key, default)` over an association list kept in
insertion order. -/
def py_dict_get (d : List (String × String)) (key dflt : String) : String :=
  match d.find? (fun p => p.1 == key) with
  | some p => p.2
  | none => dflt

/-! ## Fixed data of `UniversalChatbot.__init__` (src/backend/app.py:84-100) -/

def supported_languages : List (String × String) :=
  [("en", "English"), ("es", "Spanish"), ("fr", "French"), ("de", "German"),
   ("hi", "Hindi"), ("te", "Telugu"), ("mr", "Marathi"), ("kn", "Kannada"),
   ("gu", "Gujarati"), ("ta", "Tamil"), ("ml", "Malayalam"), ("pa", "Punjabi"),
   ("ar", "Arabic"), ("zh", "Chinese"), ("ja", "Japanese"), ("ko", "Korean"),
   ("pt", "Portuguese"), ("ru", "Russian"), ("it", "Italian")]

def idiom_patterns : List String :=
  ["piece of cake", "break a leg", "it's raining cats and dogs", "kill two birds",
   "the ball is in your court", "break the ice", "once in a blue moon",
   "bite the bullet", "hit the nail on the head", "when pigs fly"]

def formality_indicators_formal : List String :=
  ["sir", "madam", "please", "kindly", "would you", "could you", "may i"]

def formality_indicators_informal : List String :=
  ["hey", "yo", "what's up", "gonna", "wanna", "yeah", "nah"]

/-! ## Linguistic Analyzer (src/backend/app.py:102-166) -/

/-- Count of formal markers occurring in the lowered text
(`sum(1 for word in ... if word in text_lower)` at app.py:116). -/
def formal_count (text_lower : String) : Nat :=
  formality_indicators_formal.countP (fun word => py_contains word text_lower)

/-- Count of informal markers occurring in the lowered text (app.py:117). -/
def informal_count (text_lower : String) : Nat :=
  formality_indicators_informal.countP (fun word => py_contains word text_lower)

/-- `UniversalChatbot.detect_formality_level` (app.py:114-124). -/
def detect_formality_level (text_lower : String) : String :=
  if formal_count text_lower > informal_count text_lower then "formal"
  else if informal_count text_lower > formal_count text_lower then "informal"
  else "neutral"

def cultural_keywords : List String :=
  ["thanksgiving", "diwali", "christmas", "ramadan", "new year",
   "subway", "underground", "tube", "metro", "football", "soccer",
   "dollars", "euros", "pounds", "rupees", "yen"]

/-- `UniversalChatbot.detect_cultural_references` (app.py:126-133). -/
def detect_cultural_references (text_lower : String) : Bool :=
  cultural_keywords.any (fun keyword => py_contains keyword text_lower)

def positive_words : List String :=
  ["great", "excellent", "wonderful", "amazing", "fantastic", "love", "happy"]

def negative_words : List String :=
  ["terrible", "awful", "hate", "angry", "frustrated", "disappointed", "bad"]

/-- Count of positive words occurring in the lowered text (app.py:140). -/
def positive_count (text_lower : String) : Nat :=
  positive_words.countP (fun word => py_contains word text_lower)

/-- Count of negative words occurring in the lowered text (app.py:141). -/
def negative_count (text_lower : String) : Nat :=
  negative_words.countP (fun word => py_contains word text_lower)

/-- `UniversalChatbot.detect_sentiment_indicators` (app.py:135-148). -/
def detect_sentiment_indicators (text_lower : String) : String :=
  if positive_count text_lower > negative_count text_lower then "positive"
  else if negative_count text_lower > positive_count text_lower then "negative"
  else "neutral"

def complex_structure_markers : List String :=
  ["however", "nevertheless", "furthermore", "consequently", "meanwhile",
   "which", "whom", "whose", "that", "although", "whereas"]

/-- `UniversalChatbot.assess_grammar_complexity` (app.py:150-166).  Python
computes `avg = total_words / max(n_sentences, 1)` by exact enough float
division and compares `avg > 15` and `avg > 8`; since the divisor is
positive, those comparisons are `15 * divisor < total_words` and
`8 * divisor < total_words`, which is how they are written here. -/
def assess_grammar_complexity (text : String) : String :=
  let sentences := py_split "." text
  let total_words := (sentences.map (fun s => (py_words s).length)).sum
  let divisor := max sentences.length 1
  let has_complex_structures :=
    complex_structure_markers.any (fun marker => py_contains marker (py_lower text))
  if 15 * divisor < total_words ∨ has_complex_structures then "complex"
  else if 8 * divisor < total_words then "moderate"
  else "simple"

structure LinguisticComplexity where
  has_idioms : Bool
  formality_level : String
  has_cultural_references : Bool
  sentiment : String
  grammar_complexity : String
  deriving DecidableEq, Repr

/-- `UniversalChatbot.detect_linguistic_complexity` (app.py:102-112). -/
def detect_linguistic_complexity (text : String) : LinguisticComplexity :=
  let text_lower := py_lower text
  { has_idioms := idiom_patterns.any (fun idiom => py_contains idiom text_lower)
    formality_level := detect_formality_level text_lower
    has_cultural_references := detect_cultural_references text_lower
    sentiment := detect_sentiment_indicators text_lower
    grammar_complexity := assess_grammar_complexity text }

/-! ## Language detection (src/backend/app.py:168-173).  The langdetect
library is external: `detectO text` is its answer, `none` when it throws. -/

def detect_language (detectO : String → Option String) (text : String) : String :=
  match detectO text with
  | some detected =>
    if (supported_languages.map Prod.fst).contains detected then detected else "en"
  | none => "en"

/-! ## Query Classifier (src/backend/app.py:175-207) -/

def translation_patterns : List String :=
  ["translate", "translation", "convert to", "how to say", "what does", "mean in", "say in"]

def sdg_keywords : List String :=
  ["sdg", "sustainable development", "inequality", "equality", "discrimination", "rights", "barrier"]

def help_keywords : List String :=
  ["help", "what can you do", "features", "how do you work", "capabilities"]

def greeting_keywords : List String :=
  ["hello", "hi", "hey", "greetings", "good morning", "good afternoon"]

def language_culture_keywords : List String :=
  ["language", "speak", "communication", "culture", "cultural", "idiom", "phrase",
   "expression", "formality", "formal", "informal", "grammar", "figurative", "literal",
   "politeness", "ambiguous", "ambiguity", "sentiment", "tone"]

def technology_keywords : List String :=
  ["technology", "ai", "artificial intelligence", "machine learning", "nlp",
   "natural language", "computer", "programming", "science", "physics", "chemistry",
   "biology", "mathematics"]

def general_question_keywords : List String :=
  ["what is", "how does", "why is", "explain", "tell me about", "describe", "define",
   "difference between"]

/-- `UniversalChatbot.classify_query` (app.py:175-207): an if/elif chain over
keyword sets, first match wins; the two final elifs both yield
`general_question`. -/
def classify_query (message_lower : String) : String :=
  if translation_patterns.any (fun word => py_contains word message_lower) then "translation"
  else if sdg_keywords.any (fun word => py_contains word message_lower) then "sdg_equality"
  else if help_keywords.any (fun word => py_contains word message_lower) then "help_info"
  else if (greeting_keywords.any (fun word => py_contains word message_lower))
      ∧ (py_words message_lower).length ≤ 5 then "greeting"
  else if language_culture_keywords.any (fun word => py_contains word message_lower) then
    "language_culture"
  else if technology_keywords.any (fun word => py_contains word message_lower) then
    "general_question"
  else if (general_question_keywords.any (fun word => py_contains word message_lower))
      ∨ py_contains "?" message_lower then "general_question"
  else "general"

/-- Modelled from the spec: the classifier as seven ordered rules with
first-match precedence — (1) translation, (2) sdg_equality, (3) help_info,
(4) greeting gated on word count at most 5, (5) language_culture,
(6) technology/science keywords OR general wh-question keywords OR a
question mark, giving general_question, (7) general. -/
def classify_spec (message_lower : String) : String :=
  if translation_patterns.any (fun word => py_contains word message_lower) then "translation"
  else if sdg_keywords.any (fun word => py_contains word message_lower) then "sdg_equality"
  else if help_keywords.any (fun word => py_contains word message_lower) then "help_info"
  else if (greeting_keywords.any (fun word => py_contains word message_lower))
      ∧ (py_words message_lower).length ≤ 5 then "greeting"
  else if language_culture_keywords.any (fun word => py_contains word message_lower) then
    "language_culture"
  else if (technology_keywords.any (fun word => py_contains word message_lower))
      ∨ (general_question_keywords.any (fun word => py_contains word message_lower))
      ∨ py_contains "?" message_lower then "general_question"
  else "general"

/-! ## Translation Adapter (src/backend/app.py:444-478).

The googletrans engine is external: `engine text dest src` is
`translator.translate(text, dest=..., src=...).text`, `Except.error e`
when the library raises with message `e`.  The pair's second component
counts engine invocations (so "no external call" is provable). -/

def translate_text (engine : String → String → String → Except String String)
    (detectO : String → Option String)
    (text : String) (target_language : String) (source_language : Option String) :
    String × Nat :=
  let src :=
    match source_language with
    | none => detect_language detectO text
    | some s => s
  if src = target_language then (text, 0)
  else
    let complexity := detect_linguistic_complexity text
    if complexity.has_idioms || complexity.has_cultural_references then
      match engine text target_language src with
      | Except.error e => ("Translation failed: " ++ e, 1)
      | Except.ok translated =>
        let explanatory_notes :=
          (if complexity.has_idioms then
            ["Note: This text contains idioms that may not translate literally."] else [])
          ++ (if complexity.has_cultural_references then
            ["Note: This text contains cultural references that may need localization."] else [])
        if explanatory_notes ≠ [] then
          (translated ++ "\n\n" ++ py_join " " explanatory_notes, 1)
        else (translated, 1)
    else
      match engine text target_language src with
      | Except.error e => ("Translation failed: " ++ e, 1)
      | Except.ok result_text => (result_text, 1)

/-! ## File-content translation (src/backend/app.py:248-284). -/

/-- The paragraph-accumulation loop of `translate_file_content`
(app.py:265-279): `translated` is the list built so far, `current` the
chunk being accumulated, `calls` the engine invocations so far.
`tr` is `self.translate_text` applied to the chunk. -/
def process_paragraphs (tr : String → String × Nat) :
    List String → List String → String → Nat → List String × Nat
  | [], translated, current, calls =>
    if py_strip current ≠ "" then
      (translated ++ [(tr (py_strip current)).1], calls + (tr (py_strip current)).2)
    else (translated, calls)
  | p :: ps, translated, current, calls =>
    if (current ++ p ++ "\n\n").length ≤ 4000 then
      process_paragraphs tr ps translated (current ++ p ++ "\n\n") calls
    else if py_strip current ≠ "" then
      process_paragraphs tr ps (translated ++ [(tr (py_strip current)).1]) (p ++ "\n\n")
        (calls + (tr (py_strip current)).2)
    else process_paragraphs tr ps translated (p ++ "\n\n") calls

/-- The chunks the loop sends to translation, without translating them:
same recursion as `process_paragraphs`, emitting the stripped chunks. -/
def chunksFrom : List String → String → List String
  | [], current => if py_strip current ≠ "" then [py_strip current] else []
  | p :: ps, current =>
    if (current ++ p ++ "\n\n").length ≤ 4000 then chunksFrom ps (current ++ p ++ "\n\n")
    else if py_strip current ≠ "" then py_strip current :: chunksFrom ps (p ++ "\n\n")
    else chunksFrom ps (p ++ "\n\n")

/-- `UniversalChatbot.translate_file_content` (app.py:248-284): empty-content
guard, direct delegation for at most 4000 characters, else the paragraph
chunking loop joined with blank lines. -/
def translate_file_content (engine : String → String → String → Except String String)
    (detectO : String → Option String)
    (text_content : String) (target_language : String) (source_language : Option String) :
    String × Nat :=
  if text_content = "" ∨ py_strip text_content = "" then
    ("File appears to be empty or unreadable.", 0)
  else if text_content.length ≤ 4000 then
    translate_text engine detectO text_content target_language source_language
  else
    let paragraphs := py_split "\n\n" text_content
    let pr := process_paragraphs
      (fun chunk => translate_text engine detectO chunk target_language source_language)
      paragraphs [] "" 0
    (py_join "\n\n" pr.1, pr.2)

/-! ## LLM Adapter (src/backend/app.py:520-550, 590-655).

The Ollama HTTP endpoint is external: `ollama prompt` is the outcome of
`requests.post(OLLAMA_URL, ...)` — `Except.ok (status_code, response_field)`
for an HTTP reply whose JSON `response` field is `response_field`
(`result.get('response', '')`), `Except.error ()` for a connection failure,
timeout or other raised exception. -/

/-- Python `bool` rendered inside an f-string. -/
def py_bool_str (b : Bool) : String := if b then "True" else "False"

/-- `UniversalChatbot.get_ai_translation` (app.py:520-550). -/
def get_ai_translation (ollama : String → Except Unit (Nat × String)) (prompt : String) :
    Option String :=
  match ollama prompt with
  | Except.error _ => none
  | Except.ok (status_code, response_field) =>
    if status_code = 200 then
      let translation := py_strip response_field
      if translation ≠ "" ∧ py_startswith translation "I cannot" = false
          ∧ py_startswith translation "Sorry" = false then
        some translation
      else none
    else none

/-- `UniversalChatbot.get_fallback_response` (app.py:718-775): canned,
language-keyed replies used when Ollama is unavailable or unusable. -/
def get_fallback_response (message : String) (language : String) : String :=
  let message_lower := py_lower message
  if (["hello", "hi", "hey", "greetings", "good morning", "good afternoon",
      "good evening"] : List String).any (fun word => py_contains word message_lower) then
    py_dict_get
      [("en", "Hello! I'm your Universal Language Support Assistant. I can help you with questions, translations, and information about equality and inclusion. What would you like to know?"),
       ("es", "¡Hola! Soy tu Asistente Universal de Soporte de Idiomas. Puedo ayudarte con preguntas, traducciones e información sobre igualdad e inclusión. ¿Qué te gustaría saber?"),
       ("fr", "Bonjour! Je suis votre Assistant Universel de Support Linguistique. Je peux vous aider avec des questions, des traductions et des informations sur l'égalité et l'inclusion. Que voulez-vous savoir?"),
       ("hi", "नमस्ते! मैं आपका यूनिवर्सल भाषा सहायता सहायक हूं। मैं आपको प्रश्नों, अनुवादों और समानता तथा समावेश के बारे में जानकारी के साथ मदद कर सकता हूं।")]
      language
      "Hello! I'm your Universal Language Support Assistant. I can help you with questions, translations, and information about equality and inclusion. What would you like to know?"
  else if (["translate", "translation", "convert"] : List String).any
      (fun word => py_contains word message_lower) then
    py_dict_get
      [("en", "I can help you translate text between multiple languages! Just tell me what you'd like to translate and which language you want it in. For example: 'Translate Hello to Spanish' or just type your text and I'll help translate it."),
       ("es", "¡Puedo ayudarte a traducir texto entre múltiples idiomas! Solo dime qué te gustaría traducir y en qué idioma lo quieres. Por ejemplo: 'Traduce Hola al inglés'."),
       ("fr", "Je peux vous aider à traduire du texte entre plusieurs langues! Dites-moi simplement ce que vous aimeriez traduire et dans quelle langue vous le voulez.")]
      language
      "I can help you translate text between multiple languages! Just tell me what you'd like to translate and which language you want it in. For example: 'Translate Hello to Spanish' or just type your text and I'll help translate it."
  else if (["help", "what can you do", "how do you work", "features"] : List String).any
      (fun word => py_contains word message_lower) then
    py_dict_get
      [("en", "I can help you with: 1) Answering questions on various topics, 2) Translating between 12+ languages, 3) Voice input and output, 4) Information about equality and reducing inequalities (SDG 10), 5) Cross-cultural communication. What would you like assistance with?"),
       ("es", "Puedo ayudarte con: 1) Responder preguntas sobre varios temas, 2) Traducir entre más de 12 idiomas, 3) Entrada y salida de voz, 4) Información sobre igualdad y reducción de desigualdades (ODS 10), 5) Comunicación intercultural."),
       ("fr", "Je peux vous aider avec: 1) Répondre aux questions sur divers sujets, 2) Traduire entre plus de 12 langues, 3) Entrée et sortie vocales, 4) Informations sur l'égalité et la réduction des inégalités (ODD 10), 5) Communication interculturelle.")]
      language
      "I can help you with: 1) Answering questions on various topics, 2) Translating between 12+ languages, 3) Voice input and output, 4) Information about equality and reducing inequalities (SDG 10), 5) Cross-cultural communication. What would you like assistance with?"
  else if (["inequality", "discrimination", "equality", "rights", "inclusion", "sdg",
      "sustainable"] : List String).any (fun word => py_contains word message_lower) then
    py_dict_get
      [("en", "SDG 10 aims to reduce inequalities within and among countries. This includes promoting equal opportunities, fighting discrimination, and ensuring inclusive participation in society. I can help you understand specific aspects of inequality or suggest ways to promote equality. What would you like to know?"),
       ("es", "El ODS 10 tiene como objetivo reducir las desigualdades dentro y entre países. Esto incluye promover la igualdad de oportunidades, combatir la discriminación y asegurar la participación inclusiva en la sociedad."),
       ("fr", "L'ODD 10 vise à réduire les inégalités au sein des pays et entre eux. Cela inclut la promotion de l'égalité des chances, la lutte contre la discrimination et la participation inclusive dans la société.")]
      language
      "SDG 10 aims to reduce inequalities within and among countries. This includes promoting equal opportunities, fighting discrimination, and ensuring inclusive participation in society. I can help you understand specific aspects of inequality or suggest ways to promote equality. What would you like to know?"
  else if py_contains "?" message = true
      ∨ (["what", "how", "why", "when", "where", "who"] : List String).any
          (fun word => py_contains word message_lower) then
    py_dict_get
      [("en", "I understand you're asking about '" ++ message ++ "'. While I can help with many topics including translations, equality issues, and general questions, I'd be happy to provide more specific information if you could rephrase your question. What exactly would you like to know?"),
       ("es", "Entiendo que estás preguntando sobre '" ++ message ++ "'. Aunque puedo ayudar con muchos temas incluyendo traducciones, cuestiones de igualdad y preguntas generales, estaría feliz de proporcionar información más específica."),
       ("fr", "Je comprends que vous posez une question sur '" ++ message ++ "'. Bien que je puisse aider avec de nombreux sujets, je serais heureux de fournir des informations plus spécifiques.")]
      language
      ("I understand you're asking about '" ++ message ++ "'. While I can help with many topics including translations, equality issues, and general questions, I'd be happy to provide more specific information if you could rephrase your question. What exactly would you like to know?")
  else
    py_dict_get
      [("en", "Thank you for your message: '" ++ message ++ "'. I'm here to help with translations, answer questions, and provide information about equality and inclusion. Could you please let me know specifically how I can assist you today?"),
       ("es", "Gracias por tu mensaje: '" ++ message ++ "'. Estoy aquí para ayudar con traducciones, responder preguntas y proporcionar información sobre igualdad e inclusión. ¿Podrías decirme específicamente cómo puedo ayudarte hoy?"),
       ("fr", "Merci pour votre message: '" ++ message ++ "'. Je suis là pour aider avec les traductions, répondre aux questions et fournir des informations sur l'égalité et l'inclusion. Pourriez-vous me dire spécifiquement comment je peux vous aider aujourd'hui?")]
      language
      ("Thank you for your message: '" ++ message ++ "'. I'm here to help with translations, answer questions, and provide information about equality and inclusion. Could you please let me know specifically how I can assist you today?")

/-- `UniversalChatbot.generate_response_with_ollama` (app.py:590-655):
classify, build an intent-specific prompt, call Ollama, clean the reply
(strip, drop a leading "as an ai"/"as a" sentence, require length > 10),
fall back to the canned response on any failure. -/
def generate_response_with_ollama (ollama : String → Except Unit (Nat × String))
    (message : String) (language : String) : String :=
  let message_lower := py_lower message
  let query_type := classify_query message_lower
  let prompt :=
    if query_type = "translation" then
      "Help with this translation request: " ++ message ++
      "\n\nProvide accurate translation with cultural context. If it's an idiom or cultural expression, explain the meaning and provide equivalent expressions."
    else if query_type = "general_question" then
      "Question: " ++ message ++ "\n\nProvide a clear, accurate answer. Be concise but comprehensive."
    else if query_type = "greeting" then
      "User greeting: " ++ message ++
      "\n\nRespond warmly and professionally. Briefly mention your translation and language support capabilities."
    else if query_type = "language_culture" then
      "Language/culture question: " ++ message ++
      "\n\nProvide expert information about linguistic nuances, cultural contexts, and cross-cultural communication."
    else
      "User message: " ++ message ++
      "\n\nProvide a helpful, accurate response. Focus on being informative and relevant."
  match ollama prompt with
  | Except.error _ => get_fallback_response message language
  | Except.ok (status_code, response_field) =>
    if status_code = 200 then
      let generated_response := py_strip response_field
      if generated_response ≠ "" then
        let generated_response :=
          if py_startswith (py_lower generated_response) "as an ai" then
            py_strip (py_split_dot1_last generated_response)
          else generated_response
        let generated_response :=
          if py_startswith (py_lower generated_response) "as a" then
            py_strip (py_split_dot1_last generated_response)
          else generated_response
        if 10 < generated_response.length then generated_response
        else get_fallback_response message language
      else get_fallback_response message language
    else get_fallback_response message language

/-- `UniversalChatbot.enhanced_translate_with_context` (app.py:480-518):
for text with idioms, non-neutral formality or cultural references, try the
AI-assisted translation; otherwise, or when it yields nothing, fall back to
the plain translation adapter. -/
def enhanced_translate_with_context (ollama : String → Except Unit (Nat × String))
    (engine : String → String → String → Except String String)
    (detectO : String → Option String)
    (text : String) (target_language : String) (source_language : Option String) : String :=
  let complexity := detect_linguistic_complexity text
  let context_prompt :=
    "\nTranslate the following text from " ++
    (match source_language with
     | some s => if s = "" then "auto-detected language" else s
     | none => "auto-detected language") ++
    " to " ++ target_language ++ ".\n\nIMPORTANT CONSIDERATIONS:\n- Formality level: " ++
    complexity.formality_level ++ "\n- Contains idioms: " ++
    py_bool_str complexity.has_idioms ++ "\n- Cultural references: " ++
    py_bool_str complexity.has_cultural_references ++ "\n- Sentiment: " ++
    complexity.sentiment ++ "\n- Grammar complexity: " ++
    complexity.grammar_complexity ++ "\n\nTRANSLATION GUIDELINES:\n1. Preserve the formality level (" ++
    complexity.formality_level ++ ")\n2. If idioms are present, provide culturally appropriate equivalents in " ++
    target_language ++ "\n3. Adapt cultural references to " ++ target_language ++
    " context when appropriate\n4. Maintain the emotional tone (" ++ complexity.sentiment ++
    ")\n5. Preserve the meaning while adapting to natural " ++ target_language ++
    " word order\n\nText to translate: \"" ++ text ++
    "\"\n\nProvide ONLY the translation, nothing else."
  if complexity.has_idioms || decide (complexity.formality_level ≠ "neutral")
      || complexity.has_cultural_references then
    match get_ai_translation ollama context_prompt with
    | some ai_translation =>
      if ai_translation ≠ "" ∧ 0 < (py_strip ai_translation).length then ai_translation
      else (translate_text engine detectO text target_language source_language).1
    | none => (translate_text engine detectO text target_language source_language).1
  else (translate_text engine detectO text target_language source_language).1

/-! ## Speech-to-text endpoint (src/backend/app.py:779-819).

The transient audio file is modelled by explicit state: `wrote_file` records
whether the `tempfile.NamedTemporaryFile` was written, `file_exists_after`
whether it still exists when the handler returns.  Whisper is external:
`transcribe` is the outcome of `whisper_model.transcribe`, `Except.error ()`
when it raises; `decode_ok` models whether `base64.b64decode` succeeds. -/

structure WhisperResult where
  text : String
  language : Option String
  avg_logprob : Option Int
  deriving DecidableEq

inductive SpeechResponse where
  | err (status : Nat) (msg : String)
  | ok (transcription : String) (detected_language : String) (confidence : Int)
  deriving DecidableEq

structure SpeechOutcome where
  response : SpeechResponse
  wrote_file : Bool
  file_exists_after : Bool
  deriving DecidableEq

/-- The `/api/speech-to-text` handler (app.py:779-819). -/
def speech_to_text (whisper_available : Bool) (audio_data : String) (language : String)
    (decode_ok : Bool) (transcribe : Except Unit WhisperResult) : SpeechOutcome :=
  if whisper_available = false then
    { response := .err 400 "Speech recognition not available on server. Using browser recognition."
      wrote_file := false, file_exists_after := false }
  else if audio_data = "" then
    { response := .err 400 "No audio data provided", wrote_file := false
      file_exists_after := false }
  else if decode_ok = false then
    -- base64.b64decode raised before the temp file was created: outer except, 500
    { response := .err 500 "Speech recognition failed", wrote_file := false
      file_exists_after := false }
  else
    -- the temp file is written here; the finally block deletes it on both paths
    match transcribe with
    | Except.ok result =>
      { response := .ok (py_strip result.text) (result.language.getD language)
          (result.avg_logprob.getD 0)
        wrote_file := true, file_exists_after := false }
    | Except.error _ =>
      { response := .err 500 "Speech recognition failed", wrote_file := true
        file_exists_after := false }

/-! ## Health endpoint (src/backend/app.py:921-935).

`probe` is the outcome of `requests.get(".../api/version", timeout=5)`:
`Except.ok code` for an HTTP reply with that status, `Except.error ()` for a
connection failure or timeout. -/

structure HealthBody where
  status : String
  ollama_connected : Bool
  supported_languages : List String
  deriving DecidableEq

/-- The `/api/health` handler (app.py:921-935); the first component is the
HTTP status of the reply (Flask's `jsonify` default, 200). -/
def health (probe : Except Unit Nat) : Nat × HealthBody :=
  let ollama_status :=
    match probe with
    | Except.ok code => code == 200
    | Except.error _ => false
  (200, { status := "healthy", ollama_connected := ollama_status
          supported_languages := supported_languages.map Prod.fst })

/-! ## File extraction and the translate-file endpoint
(src/backend/app.py:209-246 and 937-990).

The uploaded bytes and the byte-level decoders are external, so a file is
modelled by the outcomes of the decoding attempts the code can make:
`utf8` is `file_content.decode('utf-8')` (`none` on UnicodeDecodeError),
`chardet_decode` is decoding with the chardet-guessed encoding (`none` when
that raises), `latin1_ignore` and `utf8_ignore` are the lossy decodes, which
never fail. -/

structure FileBytesModel where
  size : Nat
  utf8 : Option String
  chardet_decode : Option String
  latin1_ignore : String
  utf8_ignore : String
  deriving DecidableEq

def text_file_extensions : List String :=
  [".txt", ".md", ".py", ".js", ".html", ".css", ".json", ".xml", ".csv"]

/-- Model of `os.path.splitext(filename)[1].lower()`: the suffix starting at
the last dot, lowercased, `""` when there is no dot. -/
def splitext_ext (filename : String) : String :=
  if filename.data.contains '.' then
    py_lower (String.mk ('.' :: (filename.data.reverse.takeWhile (fun c => c ≠ '.')).reverse))
  else ""

/-- `UniversalChatbot.extract_text_from_file` (app.py:209-246). -/
def extract_text_from_file (file_content : FileBytesModel) (filename : String) : String :=
  let file_extension := splitext_ext filename
  if text_file_extensions.contains file_extension then
    match file_content.utf8 with
    | some s => s
    | none =>
      match file_content.chardet_decode with
      | some s => s
      | none => file_content.latin1_ignore
  else if file_extension = ".pdf" then
    "PDF file detected. Please convert to text format for translation."
  else if file_extension = ".doc" ∨ file_extension = ".docx" then
    "Word document detected. Please save as text file for translation."
  else
    file_content.utf8_ignore

inductive TranslateFileResponse where
  | err (status : Nat) (error : String)
  | ok (status : Nat) (original_filename : String) (file_size : Nat) (file_type : String)
      (detected_language : String) (source_language : String) (target_language : String)
      (original_content : String) (translated_content : String)
      (char_count : Nat) (translated_char_count : Nat)
  deriving DecidableEq

/-- The `/api/translate-file` handler (app.py:937-990).  `file?` is
`request.files['file']` (`none` when absent) paired with its filename;
the second component of the result counts translation-engine calls. -/
def translate_file (engine : String → String → String → Except String String)
    (detectO : String → Option String)
    (file? : Option (String × FileBytesModel))
    (target_language : String) (source_language : Option String) :
    TranslateFileResponse × Nat :=
  match file? with
  | none => (.err 400 "No file provided", 0)
  | some (filename, file_content) =>
    if filename = "" then (.err 400 "No file selected", 0)
    else
      let text_content := extract_text_from_file file_content filename
      if py_startswith text_content "Error" = true
          ∨ py_startswith text_content "Unsupported" = true
          ∨ py_contains "detected" text_content = true then
        (.err 400 text_content, 0)
      else
        let detected_lang := detect_language detectO (py_take 1000 text_content)
        let actual_source_lang :=
          match source_language with
          | some s => if s ≠ "" ∧ s ≠ "auto" then s else detected_lang
          | none => detected_lang
        let tr := translate_file_content engine detectO text_content target_language
          (some actual_source_lang)
        (.ok 200 filename file_content.size (splitext_ext filename) detected_lang
          actual_source_lang target_language
          (if 500 < text_content.length then py_take 500 text_content ++ "..." else text_content)
          tr.1 text_content.length tr.1.length, tr.2)

/-! ## Shared helper lemmas -/

lemma py_strip_empty : py_strip "" = "" := rfl

/-- `containsAux` is exactly contiguous-sublist occurrence. -/
lemma containsAux_iff (n h : List Char) :
    containsAux n h = true ↔ ∃ a b, h = a ++ n ++ b := by
  induction h with
  | nil =>
    simp only [containsAux, List.isEmpty_iff]
    constructor
    · rintro rfl
      exact ⟨[], [], rfl⟩
    · rintro ⟨a, b, hab⟩
      rcases List.append_eq_nil.mp hab.symm with ⟨h1, h2⟩
      exact (List.append_eq_nil.mp h1).2
  | cons c t ih =>
    simp only [containsAux, Bool.or_eq_true, List.isPrefixOf_iff_prefix, ih]
    constructor
    · rintro (⟨b, hb⟩ | ⟨a, b, rfl⟩)
      · exact ⟨[], b, by simpa using hb.symm⟩
      · exact ⟨c :: a, b, rfl⟩
    · rintro ⟨a, b, hab⟩
      cases a with
      | nil => exact Or.inl ⟨b, by simpa using hab.symm⟩
      | cons x a' =>
        simp only [List.cons_append, List.cons.injEq] at hab
        exact Or.inr ⟨a', b, hab.2⟩

/-- Occurrence is preserved by character-wise lowering when the needle is
already lowercase. -/
lemma py_contains_py_lower {needle text : String}
    (hfix : needle.data.map Char.toLower = needle.data)
    (h : py_contains needle text = true) : py_contains needle (py_lower text) = true := by
  unfold py_contains at h ⊢
  rw [containsAux_iff] at h
  obtain ⟨a, b, hab⟩ := h
  rw [containsAux_iff]
  refine ⟨a.map Char.toLower, b.map Char.toLower, ?_⟩
  show (py_lower text).data = _
  unfold py_lower
  simp only [hab, List.map_append, hfix]

/-! ## C1: classifier precedence -/

/-- C1: the classifier applies its rules in fixed first-match precedence order
(translation, sdg_equality, help_info, greeting, language_culture, question,
general).  The code's two question elifs both return general_question, so the
whole chain coincides with the spec's seven ordered rules (`classify_spec`),
and the three example messages classify as the claim states. -/
theorem c1_classifier_first_match_precedence :
    (∀ message_lower, classify_query message_lower = classify_spec message_lower)
    ∧ classify_query "translate hello to spanish" = "translation"
    ∧ classify_query "hi" = "greeting"
    ∧ classify_query "what is the difference between x and y?" = "general_question" := by
  refine ⟨fun m => ?_, by decide, by decide, by decide⟩
  unfold classify_query classify_spec
  split_ifs <;> first | rfl | tauto

/-! ## C2: same-language translation is the identity with no engine call -/

/-- C2: with the source language explicitly given and equal to the target,
`translate_text` returns the input unchanged and performs zero calls to the
external translation engine, whatever the engine and detector do. -/
theorem c2_translate_same_language_identity
    (engine : String → String → String → Except String String)
    (detectO : String → Option String) (text L : String) :
    translate_text engine detectO text L (some L) = (text, 0) := by
  simp [translate_text]

/-! ## C3: short texts delegate to plain translation — corrected.

The claim is false for empty or whitespace-only text: the guard at
app.py:251-252 returns "File appears to be empty or unreadable." before the
length check, while `translate_text` returns other output.  For every text
whose stripped form is nonempty, the claim holds. -/

/-- C3 counterexample: on the empty string (length 0 ≤ 4000) the file path
returns the empty-file message while plain translation returns the text
unchanged, so `translate_long` and `translate` differ. -/
theorem c3_counterexample_empty_text :
    translate_file_content (fun t _ _ => Except.ok t) (fun _ => none) "" "en" (some "en")
      ≠ translate_text (fun t _ _ => Except.ok t) (fun _ => none) "" "en" (some "en") := by
  decide

/-- C3 (amended): for every text whose stripped form is nonempty and whose
length is at most 4000 characters, the file-translation path returns exactly
the plain translation of the same text, target and source. -/
theorem c3_short_text_delegates_to_translate
    (engine : String → String → String → Except String String)
    (detectO : String → Option String)
    (text target : String) (source : Option String)
    (h1 : py_strip text ≠ "") (h2 : text.length ≤ 4000) :
    translate_file_content engine detectO text target source
      = translate_text engine detectO text target source := by
  have hne : ¬(text = "" ∨ py_strip text = "") := by
    rintro (rfl | h)
    · exact h1 py_strip_empty
    · exact h1 h
  unfold translate_file_content
  rw [if_neg hne, if_pos h2]

/-- C3 witness: a concrete nonempty short text satisfying both hypotheses. -/
theorem c3_witness :
    py_strip "hola mundo" ≠ "" ∧ "hola mundo".length ≤ 4000
    ∧ translate_file_content (fun t _ _ => Except.ok t) (fun _ => some "es")
        "hola mundo" "en" none
      = translate_text (fun t _ _ => Except.ok t) (fun _ => some "es") "hola mundo" "en" none :=
  ⟨by decide, by decide,
    c3_short_text_delegates_to_translate _ _ _ _ _ (by decide) (by decide)⟩

/-! ## C4: paragraph chunking of long texts -/

/-- The accumulated chunk string of a group of paragraphs: each paragraph
followed by the blank-line separator, exactly as the loop builds
`current_chunk`. -/
def joinP : List String → String
  | [] => ""
  | p :: ps => p ++ "\n\n" ++ joinP ps

lemma joinP_append (a b : List String) : joinP (a ++ b) = joinP a ++ joinP b := by
  induction a with
  | nil => simp [joinP]
  | cons p ps ih => simp [joinP, ih, String.append_assoc]

lemma joinP_snoc (g : List String) (q : String) :
    joinP (g ++ [q]) = joinP g ++ q ++ "\n\n" := by
  rw [joinP_append]
  simp [joinP, String.append_assoc]

/-- The translation loop is the pure chunking followed by translating each
chunk in order; the call counter adds up the per-chunk engine calls. -/
lemma process_paragraphs_eq_chunksFrom (tr : String → String × Nat) :
    ∀ (ps translated : List String) (current : String) (calls : Nat),
      process_paragraphs tr ps translated current calls =
        (translated ++ (chunksFrom ps current).map (fun c => (tr c).1),
         calls + ((chunksFrom ps current).map (fun c => (tr c).2)).sum) := by
  intro ps
  induction ps with
  | nil =>
    intro translated current calls
    unfold process_paragraphs chunksFrom
    split_ifs <;> simp
  | cons p ps ih =>
    intro translated current calls
    unfold process_paragraphs chunksFrom
    split_ifs with h1 h2
    · exact ih ..
    · rw [ih]
      simp [Nat.add_assoc]
    · exact ih ..

/-- Greedy chunking partitions the paragraph list into consecutive nonempty
groups; each group either fits the 4000-character limit (separator included)
or is a single oversized paragraph; the emitted chunks are exactly the
stripped nonempty group strings, in order.  `pg` is the group pending in
`current`. -/
lemma chunksFrom_partition :
    ∀ (ps pg : List String),
      (pg = [] ∨ (joinP pg).length ≤ 4000 ∨ pg.length = 1) →
      ∃ groups : List (List String),
        groups.join = pg ++ ps
        ∧ (∀ g ∈ groups, g ≠ [] ∧ ((joinP g).length ≤ 4000 ∨ g.length = 1))
        ∧ chunksFrom ps (joinP pg) =
            (groups.map (fun g => py_strip (joinP g))).filter (fun c => c ≠ "") := by
  intro ps
  induction ps with
  | nil =>
    intro pg hpg
    rcases hpg with rfl | hsz
    · exact ⟨[], by simp, by simp, by simp [chunksFrom, joinP, py_strip_empty]⟩
    · by_cases hnil : pg = []
      · subst hnil
        exact ⟨[], by simp, by simp, by simp [chunksFrom, joinP, py_strip_empty]⟩
      · refine ⟨[pg], by simp, by simp [hnil, hsz], ?_⟩
        unfold chunksFrom
        by_cases h : py_strip (joinP pg) = "" <;> simp [h]
  | cons q rest ih =>
    intro pg hpg
    have hq : joinP pg ++ q ++ "\n\n" = joinP (pg ++ [q]) := (joinP_snoc pg q).symm
    unfold chunksFrom
    rw [hq]
    by_cases hfit : (joinP (pg ++ [q])).length ≤ 4000
    · rw [if_pos hfit]
      obtain ⟨groups, hjoin, hcond, hchunks⟩ := ih (pg ++ [q]) (Or.inr (Or.inl hfit))
      exact ⟨groups, by rw [hjoin]; simp, hcond, hchunks⟩
    · rw [if_neg hfit]
      obtain ⟨groups', hjoin', hcond', hchunks'⟩ := ih [q] (Or.inr (Or.inr rfl))
      have hqj : q ++ "\n\n" = joinP [q] := by simp [joinP]
      by_cases hne : py_strip (joinP pg) = ""
      · rw [if_neg (by simpa using hne)]
        by_cases hnil : pg = []
        · subst hnil
          refine ⟨groups', by simpa using hjoin', hcond', ?_⟩
          rw [hqj]
          exact hchunks'
        · refine ⟨pg :: groups', by simp [hjoin'], ?_, ?_⟩
          · intro g hg
            rcases List.mem_cons.mp hg with rfl | hg'
            · exact ⟨hnil, hpg.resolve_left hnil⟩
            · exact hcond' g hg'
          · rw [hqj]
            simp [hchunks', List.filter_cons, hne]
      · rw [if_pos (by simpa using hne)]
        have hnil : pg ≠ [] := by
          rintro rfl
          exact hne py_strip_empty
        refine ⟨pg :: groups', by simp [hjoin'], ?_, ?_⟩
        · intro g hg
          rcases List.mem_cons.mp hg with rfl | hg'
          · exact ⟨hnil, hpg.resolve_left hnil⟩
          · exact hcond' g hg'
        · rw [hqj]
          simp [hchunks', List.filter_cons, hne]

/-- C4 (amended): for every text longer than 4000 characters whose stripped
form is nonempty, the long-text path splits on blank-line paragraph
boundaries into consecutive groups covering all paragraphs in order, every
group fits the 4000-character limit or is a single oversized paragraph,
each stripped nonempty group is translated independently, and the results
are joined with blank lines.  (For whitespace-only long text the code takes
the empty-content guard instead — see the counterexample.) -/
theorem c4_long_text_paragraph_chunking
    (engine : String → String → String → Except String String)
    (detectO : String → Option String)
    (text target : String) (source : Option String)
    (h1 : 4000 < text.length) (h2 : py_strip text ≠ "") :
    ∃ groups : List (List String),
      groups.join = py_split "\n\n" text
      ∧ (∀ g ∈ groups, g ≠ [] ∧ ((joinP g).length ≤ 4000 ∨ g.length = 1))
      ∧ (translate_file_content engine detectO text target source).1
          = py_join "\n\n"
              (((groups.map (fun g => py_strip (joinP g))).filter (fun c => c ≠ "")).map
                (fun c => (translate_text engine detectO c target source).1)) := by
  have hne : ¬(text = "" ∨ py_strip text = "") := by
    rintro (rfl | h)
    · exact h2 py_strip_empty
    · exact h2 h
  obtain ⟨groups, hjoin, hcond, hchunks⟩ :=
    chunksFrom_partition (py_split "\n\n" text) [] (Or.inl rfl)
  have hchunks0 : chunksFrom (py_split "\n\n" text) "" =
      (groups.map (fun g => py_strip (joinP g))).filter (fun c => c ≠ "") := hchunks
  refine ⟨groups, by simpa using hjoin, hcond, ?_⟩
  unfold translate_file_content
  rw [if_neg hne, if_neg (by omega)]
  simp only [process_paragraphs_eq_chunksFrom, hchunks0, List.nil_append, Nat.zero_add]

lemma dropWhile_replicate_of_neg {p : Char → Bool} {c : Char} (h : ¬ p c) :
    ∀ n, List.dropWhile p (List.replicate n c) = List.replicate n c := by
  intro n
  cases n with
  | zero => rfl
  | succ m => rw [List.replicate_succ, List.dropWhile_cons_of_neg h]

lemma dropWhile_replicate_of_pos {p : Char → Bool} {c : Char} (h : p c) :
    ∀ n, List.dropWhile p (List.replicate n c) = [] := by
  intro n
  induction n with
  | zero => rfl
  | succ m ih => rw [List.replicate_succ, List.dropWhile_cons_of_pos h, ih]

/-- Stripping a string of whitespace characters yields the empty string. -/
lemma py_strip_all_ws {s : String} (h : ∀ c ∈ s.data, c.isWhitespace) :
    py_strip s = "" := by
  unfold py_strip
  rw [List.dropWhile_eq_nil_iff.mpr h]
  rfl

/-- Splitting a run of spaces on the blank-line separator leaves it whole. -/
lemma splitOnAuxL_spaces :
    ∀ (fuel k : Nat) (cur : List Char),
      splitOnAuxL ['\n', '\n'] fuel (List.replicate k ' ') cur
        = [cur.reverse ++ List.replicate k ' '] := by
  intro fuel
  induction fuel with
  | zero => intro k cur; rfl
  | succ f ih =>
    intro k cur
    cases k with
    | zero => simp [splitOnAuxL]
    | succ m =>
      rw [List.replicate_succ]
      unfold splitOnAuxL
      rw [if_neg (by simp [List.isPrefixOf])]
      rw [ih m (' ' :: cur)]
      simp [List.replicate_succ, List.append_assoc]

/-- C4 counterexample: for 4001 spaces (length 4001 > 4000) the code takes
the empty-content guard and returns "File appears to be empty or
unreadable.", while chunking that text yields no chunks at all, so the
blank-line join of the translated chunks is the empty string: the long-text
path does not perform the chunk-translate-join computation the claim
describes for every text longer than 4000 characters. -/
theorem c4_counterexample_whitespace_text :
    (translate_file_content (fun t _ _ => Except.ok t) (fun _ => none)
        (String.mk (List.replicate 4001 ' ')) "es" (some "en")).1
      = "File appears to be empty or unreadable."
    ∧ py_join "\n\n"
        ((chunksFrom (py_split "\n\n" (String.mk (List.replicate 4001 ' '))) "").map
          (fun c => (translate_text (fun t _ _ => Except.ok t) (fun _ => none) c "es"
            (some "en")).1))
      = ""
    ∧ ("File appears to be empty or unreadable." : String) ≠ "" := by
  have hws : py_strip (String.mk (List.replicate 4001 ' ')) = "" := by
    apply py_strip_all_ws
    intro c hc
    rw [List.eq_of_mem_replicate hc]
    decide
  refine ⟨?_, ?_, by decide⟩
  · unfold translate_file_content
    rw [if_pos (Or.inr hws)]
  · have hsplit : py_split "\n\n" (String.mk (List.replicate 4001 ' '))
        = [String.mk (List.replicate 4001 ' ')] := by
      unfold py_split
      rw [show (String.mk (List.replicate 4001 ' ')).data = List.replicate 4001 ' ' from rfl,
        show ("\n\n" : String).data = ['\n', '\n'] from rfl]
      rw [splitOnAuxL_spaces]
      rfl
    rw [hsplit]
    unfold chunksFrom
    rw [if_neg (by
      rw [String.empty_append]
      have hl : (String.mk (List.replicate 4001 ' ') ++ "\n\n").length = 4003 := by
        rw [String.length_append,
          show (String.mk (List.replicate 4001 ' ')).length = (List.replicate 4001 ' ').length
            from rfl,
          List.length_replicate]
        decide
      omega)]
    rw [if_neg (by simp [py_strip_empty])]
    unfold chunksFrom
    rw [if_neg (by
      have : py_strip (String.mk (List.replicate 4001 ' ') ++ "\n\n") = "" := by
        apply py_strip_all_ws
        intro c hc
        rw [String.data_append] at hc
        rcases List.mem_append.mp hc with h | h
        · rw [List.eq_of_mem_replicate h]; decide
        · have h2 : c = '\n' ∨ c = '\n' := by simpa using h
          rcases h2 with rfl | rfl <;> decide
      exact fun hcon => hcon this)]
    rfl

/-- C4 witness: a 4001-character non-whitespace text satisfying both
hypotheses of the amended chunking theorem. -/
theorem c4_witness :
    ∃ groups : List (List String),
      groups.join = py_split "\n\n" (String.mk (List.replicate 4001 'a'))
      ∧ (∀ g ∈ groups, g ≠ [] ∧ ((joinP g).length ≤ 4000 ∨ g.length = 1))
      ∧ (translate_file_content (fun t _ _ => Except.ok t) (fun _ => some "en")
            (String.mk (List.replicate 4001 'a')) "fr" none).1
          = py_join "\n\n"
              (((groups.map (fun g => py_strip (joinP g))).filter (fun c => c ≠ "")).map
                (fun c => (translate_text (fun t _ _ => Except.ok t) (fun _ => some "en")
                  c "fr" none).1)) := by
  have hlen : 4000 < (String.mk (List.replicate 4001 'a')).length := by
    show 4000 < (List.replicate 4001 'a').length
    rw [List.length_replicate]
    omega
  have hstrip : py_strip (String.mk (List.replicate 4001 'a')) ≠ "" := by
    have heq : py_strip (String.mk (List.replicate 4001 'a'))
        = String.mk (List.replicate 4001 'a') := by
      unfold py_strip
      rw [show (String.mk (List.replicate 4001 'a')).data = List.replicate 4001 'a' from rfl,
        dropWhile_replicate_of_neg (by decide), List.reverse_replicate,
        dropWhile_replicate_of_neg (by decide), List.reverse_replicate]
    rw [heq]
    intro h
    have h2 : List.replicate 4001 'a' = ([] : List Char) := congrArg String.data h
    rw [show (4001 : Nat) = 4000 + 1 from rfl, List.replicate_succ] at h2
    exact List.cons_ne_nil _ _ h2
  exact c4_long_text_paragraph_chunking (fun t _ _ => Except.ok t) (fun _ => some "en")
    (String.mk (List.replicate 4001 'a')) "fr" none hlen hstrip

/-! ## C5: idiom detection and the explanatory note -/

/-- Every listed idiom phrase is already lowercase, so character-wise
lowering fixes it. -/
lemma idioms_lower : ∀ i ∈ idiom_patterns, i.data.map Char.toLower = i.data := by decide

/-- C5: for every text containing a listed idiom phrase, the analyzer flags
`has_idioms`, and — with differing source and target languages and the
engine returning a translation — the translate output is the translated
text followed by a blank line and the idiom explanatory note (followed by
the cultural note, space-joined on the same trailing line, when that flag
is also set). -/
theorem c5_idiom_note_appended
    (engine : String → String → String → Except String String)
    (detectO : String → Option String)
    (text src tgt translated idiom : String)
    (h1 : idiom ∈ idiom_patterns)
    (h2 : py_contains idiom text = true)
    (h3 : src ≠ tgt)
    (h4 : engine text tgt src = Except.ok translated) :
    (detect_linguistic_complexity text).has_idioms = true
    ∧ ∃ suffix,
        (translate_text engine detectO text tgt (some src)).1
          = translated ++ "\n\n"
            ++ "Note: This text contains idioms that may not translate literally." ++ suffix := by
  have hlow : py_contains idiom (py_lower text) = true :=
    py_contains_py_lower (idioms_lower idiom h1) h2
  have hidiom : (detect_linguistic_complexity text).has_idioms = true :=
    List.any_eq_true.mpr ⟨idiom, h1, hlow⟩
  refine ⟨hidiom, ?_⟩
  by_cases hc : (detect_linguistic_complexity text).has_cultural_references = true
  · refine ⟨" " ++ "Note: This text contains cultural references that may need localization.", ?_⟩
    simp [translate_text, h3, hidiom, hc, h4, py_join, String.append_assoc]
  · refine ⟨"", ?_⟩
    rw [Bool.not_eq_true] at hc
    simp [translate_text, h3, hidiom, hc, h4, py_join, String.append_assoc]

/-- C5 witness: a concrete text containing "piece of cake", with distinct
source and target languages and a concrete engine translation. -/
theorem c5_witness :
    (detect_linguistic_complexity "This is a piece of cake").has_idioms = true
    ∧ ∃ suffix,
        (translate_text (fun _ _ _ => Except.ok "Esto es pan comido") (fun _ => none)
            "This is a piece of cake" "es" (some "en")).1
          = "Esto es pan comido" ++ "\n\n"
            ++ "Note: This text contains idioms that may not translate literally." ++ suffix :=
  c5_idiom_note_appended (fun _ _ _ => Except.ok "Esto es pan comido") (fun _ => none)
    "This is a piece of cake" "en" "es" "Esto es pan comido" "piece of cake"
    (by decide) (by decide) (by decide) rfl

/-! ## C6: refusal filtering — corrected.

`get_ai_translation` (app.py:543) rejects replies starting with "I cannot"
or "Sorry", and its caller `enhanced_translate_with_context` then falls back
to the plain translation adapter.  But `generate_response_with_ollama`
(app.py:625-648) applies no refusal filter at all: a refusal longer than 10
characters is returned to the caller verbatim, so the claim's "every
generation path" is false. -/

/-- C6 counterexample: the general chat generation path returns the refusal
text "I cannot help with that" itself, not the fallback response. -/
theorem c6_counterexample_generate_returns_refusal :
    generate_response_with_ollama (fun _ => Except.ok (200, "I cannot help with that"))
        "hello" "en" = "I cannot help with that"
    ∧ get_fallback_response "hello" "en" ≠ "I cannot help with that" :=
  ⟨by decide, by decide⟩

/-- C6 (amended): a trimmed LLM reply beginning with "I cannot" or "Sorry"
is treated as null by the AI-translation path (`get_ai_translation`), whose
caller then receives the plain-translation fallback; the general generation
path (`generate_response_with_ollama`) applies no such filter and returns
the refusal text itself. -/
theorem c6_refusal_filter_ai_translation_only :
    (∀ (ollama : String → Except Unit (Nat × String)) (prompt body : String),
        ollama prompt = Except.ok (200, body) →
        (py_startswith (py_strip body) "I cannot" = true
          ∨ py_startswith (py_strip body) "Sorry" = true) →
        get_ai_translation ollama prompt = none)
    ∧ (∀ (ollama : String → Except Unit (Nat × String))
        (engine : String → String → String → Except String String)
        (detectO : String → Option String) (text tgt : String) (src : Option String),
        (∀ p, get_ai_translation ollama p = none) →
        enhanced_translate_with_context ollama engine detectO text tgt src
          = (translate_text engine detectO text tgt src).1)
    ∧ (∀ message language,
        generate_response_with_ollama (fun _ => Except.ok (200, "I cannot help with that"))
          message language = "I cannot help with that") := by
  refine ⟨?_, ?_, fun message language => rfl⟩
  · intro ollama prompt body hresp href
    unfold get_ai_translation
    rw [hresp]
    rcases href with h | h <;> simp [h]
  · intro ollama engine detectO text tgt src hnone
    unfold enhanced_translate_with_context
    simp [hnone]

/-- C6 witness: concrete refusal replies through each path. -/
theorem c6_witness :
    get_ai_translation (fun _ => Except.ok (200, " Sorry, I cannot do that")) "p" = none
    ∧ enhanced_translate_with_context (fun _ => Except.error ())
        (fun _ _ _ => Except.ok "hola") (fun _ => none) "please translate" "es" (some "en")
      = (translate_text (fun _ _ _ => Except.ok "hola") (fun _ => none)
          "please translate" "es" (some "en")).1
    ∧ generate_response_with_ollama (fun _ => Except.ok (200, "I cannot help with that"))
        "hey" "fr" = "I cannot help with that" :=
  ⟨c6_refusal_filter_ai_translation_only.1 _ "p" " Sorry, I cannot do that" rfl
      (Or.inr (by decide)),
    c6_refusal_filter_ai_translation_only.2.1 _ _ _ "please translate" "es" (some "en")
      (fun _ => rfl),
    c6_refusal_filter_ai_translation_only.2.2 "hey" "fr"⟩

/-! ## C7: the analyzer is total with strictly-greater count verdicts -/

/-- C7: the analyzer needs no error handling — on the empty string it
returns the neutral/false/simple defaults; formality and sentiment are
decided by strictly-greater keyword counts with ties yielding neutral; and
on every input each verdict is one of its closed set of values. -/
theorem c7_analyzer_total_and_strict_ties :
    detect_linguistic_complexity "" =
      { has_idioms := false, formality_level := "neutral", has_cultural_references := false,
        sentiment := "neutral", grammar_complexity := "simple" }
    ∧ (∀ tl, (informal_count tl < formal_count tl → detect_formality_level tl = "formal")
        ∧ (formal_count tl < informal_count tl → detect_formality_level tl = "informal")
        ∧ (formal_count tl = informal_count tl → detect_formality_level tl = "neutral"))
    ∧ (∀ tl, (negative_count tl < positive_count tl → detect_sentiment_indicators tl = "positive")
        ∧ (positive_count tl < negative_count tl → detect_sentiment_indicators tl = "negative")
        ∧ (positive_count tl = negative_count tl → detect_sentiment_indicators tl = "neutral"))
    ∧ (∀ text,
        (detect_linguistic_complexity text).formality_level
            ∈ (["formal", "informal", "neutral"] : List String)
        ∧ (detect_linguistic_complexity text).sentiment
            ∈ (["positive", "negative", "neutral"] : List String)
        ∧ (detect_linguistic_complexity text).grammar_complexity
            ∈ (["simple", "moderate", "complex"] : List String)) := by
  refine ⟨by decide, fun tl => ⟨fun h => ?_, fun h => ?_, fun h => ?_⟩,
    fun tl => ⟨fun h => ?_, fun h => ?_, fun h => ?_⟩, fun text => ⟨?_, ?_, ?_⟩⟩
  · unfold detect_formality_level
    rw [if_pos h]
  · unfold detect_formality_level
    rw [if_neg (by omega), if_pos h]
  · unfold detect_formality_level
    rw [if_neg (by omega), if_neg (by omega)]
  · unfold detect_sentiment_indicators
    rw [if_pos h]
  · unfold detect_sentiment_indicators
    rw [if_neg (by omega), if_pos h]
  · unfold detect_sentiment_indicators
    rw [if_neg (by omega), if_neg (by omega)]
  · show detect_formality_level (py_lower text) ∈ _
    unfold detect_formality_level
    split_ifs <;> simp
  · show detect_sentiment_indicators (py_lower text) ∈ _
    unfold detect_sentiment_indicators
    split_ifs <;> simp
  · show assess_grammar_complexity text ∈ _
    simp only [assess_grammar_complexity]
    split_ifs <;> simp

/-- C7 witness: concrete texts hitting the strict-majority and tie cases. -/
theorem c7_witness :
    informal_count "please" < formal_count "please"
    ∧ detect_formality_level "please" = "formal"
    ∧ positive_count "bad day" < negative_count "bad day"
    ∧ detect_sentiment_indicators "bad day" = "negative"
    ∧ formal_count "x" = informal_count "x"
    ∧ detect_formality_level "x" = "neutral" :=
  ⟨by decide,
    (c7_analyzer_total_and_strict_ties.2.1 "please").1 (by decide),
    by decide,
    (c7_analyzer_total_and_strict_ties.2.2.1 "bad day").2.1 (by decide),
    by decide,
    (c7_analyzer_total_and_strict_ties.2.1 "x").2.2 (by decide)⟩

/-! ## C8: the transient audio file never survives the request -/

/-- C8: whenever the speech-to-text handler writes the transient audio file,
the file no longer exists when the handler returns — both when transcription
succeeds and when it raises (the finally block at app.py:812-815 removes it
on either path). -/
theorem c8_speech_temp_file_always_deleted
    (whisper_available : Bool) (audio_data language : String) (decode_ok : Bool)
    (transcribe : Except Unit WhisperResult)
    (h : (speech_to_text whisper_available audio_data language decode_ok
        transcribe).wrote_file = true) :
    (speech_to_text whisper_available audio_data language decode_ok
        transcribe).file_exists_after = false := by
  unfold speech_to_text
  split_ifs <;> try rfl
  cases transcribe <;> rfl

/-- C8 witness: a failing transcription run that wrote the file. -/
theorem c8_witness :
    (speech_to_text true "QVVESU8=" "en" true (Except.error ())).wrote_file = true
    ∧ (speech_to_text true "QVVESU8=" "en" true (Except.error ())).file_exists_after = false :=
  ⟨by decide, c8_speech_temp_file_always_deleted true "QVVESU8=" "en" true
    (Except.error ()) (by decide)⟩

/-! ## C9: the health endpoint always answers 200 -/

/-- C9: `/api/health` returns HTTP 200 for every probe outcome, with the
healthy status and the full supported-language code list; when the Ollama
probe fails (connection error or timeout) or answers a non-200 status,
`ollama_connected` is false. -/
theorem c9_health_always_200 :
    (∀ probe : Except Unit Nat,
        (health probe).1 = 200 ∧ (health probe).2.status = "healthy"
        ∧ (health probe).2.supported_languages = supported_languages.map Prod.fst)
    ∧ (∀ u : Unit, (health (Except.error u)).2.ollama_connected = false)
    ∧ (∀ code : Nat, code ≠ 200 → (health (Except.ok code)).2.ollama_connected = false) := by
  refine ⟨fun probe => ⟨rfl, rfl, rfl⟩, fun u => rfl, fun code hc => ?_⟩
  show (code == 200) = false
  simpa using hc

/-- C9 witness: an unreachable backend and a non-200 probe status. -/
theorem c9_witness :
    (health (Except.error ())).1 = 200
    ∧ (health (Except.error ())).2.ollama_connected = false
    ∧ (health (Except.ok 500)).2.ollama_connected = false :=
  ⟨(c9_health_always_200.1 (Except.error ())).1,
    c9_health_always_200.2.1 (),
    c9_health_always_200.2.2 500 (by decide)⟩

/-! ## C10: translate-file rejects content mentioning "detected" -/

/-- C10: whenever the extracted file content begins with "Error" or
"Unsupported" or contains "detected" anywhere — even an ordinary text file
whose body merely mentions the word — the endpoint returns HTTP 400 with
that content as the error message and performs no translation-engine call. -/
theorem c10_translate_file_rejects_detected_content
    (engine : String → String → String → Except String String)
    (detectO : String → Option String)
    (filename : String) (file_content : FileBytesModel)
    (target_language : String) (source_language : Option String)
    (hfn : filename ≠ "")
    (hguard : py_startswith (extract_text_from_file file_content filename) "Error" = true
      ∨ py_startswith (extract_text_from_file file_content filename) "Unsupported" = true
      ∨ py_contains "detected" (extract_text_from_file file_content filename) = true) :
    translate_file engine detectO (some (filename, file_content))
        target_language source_language
      = (.err 400 (extract_text_from_file file_content filename), 0) := by
  simp only [translate_file]
  rw [if_neg hfn, if_pos hguard]

/-- C10 witness: a plain readable .txt upload whose body contains the word
"detected". -/
theorem c10_witness :
    translate_file (fun t _ _ => Except.ok t) (fun _ => some "en")
        (some ("notes.txt",
          { size := 22, utf8 := some "virus detected in logs", chardet_decode := none,
            latin1_ignore := "", utf8_ignore := "" }))
        "es" none
      = (.err 400 "virus detected in logs", 0) :=
  c10_translate_file_rejects_detected_content _ _ "notes.txt" _ "es" none
    (by decide) (Or.inr (Or.inr (by decide)))
